import Mathlib

/-!
Verification of the build script `src/setup.py` of the repository
"Secure Flask App with Cython / Distroless Docker".

The whole repository is one six-line `setup.py`:

  from setuptools import setup
  from Cython.Build import cythonize

  setup(
      ext_modules = cythonize("app.py", compiler_directives={"language_level": "3"})
  )

We embed the script shallowly: `cythonize` and `setup` as the construction of
a build specification, module loading as the list of observable effects of
executing the file top to bottom, and the external toolchain (transpiler,
native compiler, packager) as a contract modelled from the specification,
since the toolchain code is not part of the repository.
-/

/-- A build specification: the source modules named for the toolchain and the
configuration mapping (`compiler_directives`) passed along with them.  This is
what `cythonize(...)` constructs and `setup(ext_modules=...)` hands to the
toolchain. -/
structure BuildSpec where
  modules : List String
  directives : List (String × String)
deriving DecidableEq, Repr

/-- `cythonize(source, compiler_directives=...)` from `src/setup.py` line 5:
names one source module and attaches the directive mapping. -/
def cythonize (source : String) (compiler_directives : List (String × String)) :
    BuildSpec :=
  { modules := [source], directives := compiler_directives }

/-- The `compiler_directives` literal of `src/setup.py` line 5. -/
def compiler_directives : List (String × String) := [("language_level", "3")]

/-- The build specification constructed by `src/setup.py` line 5. -/
def theBuildSpec : BuildSpec := cythonize "app.py" compiler_directives

/-- An observable effect of executing the build script itself (not of the
external toolchain): printing, writing a file, or handing a build
specification to the external toolchain. -/
inductive ScriptEffect where
  | printOut : String → ScriptEffect
  | writeOut : String → String → ScriptEffect
  | invokeToolchain : BuildSpec → ScriptEffect
deriving DecidableEq, Repr

/-- `setup(ext_modules = ...)` from `src/setup.py` lines 4-6: hands the
constructed build specification to the external toolchain. -/
def setup (ext_modules : BuildSpec) : ScriptEffect :=
  ScriptEffect.invokeToolchain ext_modules

/-- Loading the module `src/setup.py`: Python executes every top-level
statement of a module on each load.  The two imports bind names and the one
`setup(...)` call runs unconditionally — the file contains no
`if __name__ == "__main__"` guard, so the effect list does not depend on
whether the module is loaded as the entry point (`asMain`), nor on the
command-line arguments (`argv`), neither of which the script body reads. -/
def loadModule (asMain : Bool) (argv : List String) : List ScriptEffect :=
  [setup (cythonize "app.py" compiler_directives)]

/-- Whether an effect list triggers the external build process. -/
def triggersBuild (effects : List ScriptEffect) : Bool :=
  effects.any fun e =>
    match e with
    | ScriptEffect.invokeToolchain _ => true
    | _ => false

/-- The build specifications handed to the toolchain by an effect list. -/
def specsRequested (effects : List ScriptEffect) : List BuildSpec :=
  effects.filterMap fun e =>
    match e with
    | ScriptEffect.invokeToolchain s => some s
    | _ => none

/-- Whether an effect list contains a print or a file write performed by the
script itself. -/
def hasScriptOutput (effects : List ScriptEffect) : Bool :=
  effects.any fun e =>
    match e with
    | ScriptEffect.printOut _ => true
    | ScriptEffect.writeOut _ _ => true
    | ScriptEffect.invokeToolchain _ => false

/-- Modelled from the spec: the set of configuration option keys the external
toolchain recognizes; the spec observes exactly one recognized option, the
language-version directive (`language_level`). -/
def recognizedOptions : List String := ["language_level"]

/-- Modelled from the spec: an action the external toolchain performs on a
named source module — reading it, transpiling it to the lower-level source
representation, natively compiling that representation, or packaging the
resulting artifact. -/
inductive ToolAction where
  | readSource : String → ToolAction
  | transpile : String → ToolAction
  | nativeCompile : String → ToolAction
  | package : String → ToolAction
deriving DecidableEq, Repr

/-- Modelled from the spec: the toolchain failure modes visible at build
time — an unrecognized configuration option key, a named source module that
does not exist, or a directive value the toolchain does not accept. -/
inductive BuildError where
  | unrecognizedOption : BuildError
  | missingSource : BuildError
  | unsupportedValue : BuildError
deriving DecidableEq, Repr

/-- Modelled from the spec: the native binary artifact produced from a named
source module by the packaging step. -/
inductive Artifact where
  | native : String → Artifact
deriving DecidableEq, Repr

/-- Modelled from the spec: the build environment the external toolchain acts
in — the source files present (name and content) and the directive key/value
pairs the toolchain accepts. -/
structure Env where
  files : List (String × String)
  supportedValues : List (String × String)
deriving DecidableEq, Repr

/-- The names of the source files present in the environment. -/
def fileNames (env : Env) : List String := env.files.map Prod.fst

/-- Modelled from the spec: the actions the toolchain performs for one named
source module of a valid build — read it once, transpile it, natively compile
it, package the artifact. -/
def buildActions (m : String) : List ToolAction :=
  [ToolAction.readSource m, ToolAction.transpile m, ToolAction.nativeCompile m,
   ToolAction.package m]

instance : DecidableEq (Except BuildError (List Artifact)) := fun a b =>
  match a, b with
  | Except.error e, Except.error f =>
      if h : e = f then Decidable.isTrue (congrArg Except.error h)
      else Decidable.isFalse (fun hh => h (Except.error.inj hh))
  | Except.ok x, Except.ok y =>
      if h : x = y then Decidable.isTrue (congrArg Except.ok h)
      else Decidable.isFalse (fun hh => h (Except.ok.inj hh))
  | Except.error _, Except.ok _ => Decidable.isFalse (fun hh => Except.noConfusion hh)
  | Except.ok _, Except.error _ => Decidable.isFalse (fun hh => Except.noConfusion hh)

/-- Modelled from the spec: the outcome of one toolchain run — the actions it
performed, its result (artifacts or the reported error), and the source files
afterwards. -/
structure BuildOutcome where
  actions : List ToolAction
  result : Except BuildError (List Artifact)
  filesAfter : List (String × String)
deriving DecidableEq, Repr

/-- Modelled from the spec: the external toolchain contract.  It fails before
performing any action if the configuration mapping contains an unrecognized
option key, if a named source module does not exist, or if a directive value
is not accepted; otherwise it reads, transpiles, compiles and packages each
named module and never mutates the source files. -/
def runBuild (env : Env) (bs : BuildSpec) : BuildOutcome :=
  if bs.directives.any (fun kv => !(recognizedOptions.contains kv.1)) then
    { actions := [], result := Except.error BuildError.unrecognizedOption,
      filesAfter := env.files }
  else if bs.modules.any (fun m => !((fileNames env).contains m)) then
    { actions := [], result := Except.error BuildError.missingSource,
      filesAfter := env.files }
  else if bs.directives.any (fun kv => !(env.supportedValues.contains kv)) then
    { actions := [], result := Except.error BuildError.unsupportedValue,
      filesAfter := env.files }
  else
    { actions := bs.modules.flatMap buildActions,
      result := Except.ok (bs.modules.map Artifact.native),
      filesAfter := env.files }

/-- One invocation of the build step, numbered `i`: load the module and run
the toolchain on every specification it requests.  The repository keeps no
state between invocations (no cache, no memo), so the invocation number has
no influence. -/
def invokeBuildStep (env : Env) (i : Nat) : List BuildOutcome :=
  (specsRequested (loadModule true [])).map (runBuild env)

/-- Whether a toolchain action is a compilation step (transpilation or native
compilation). -/
def isCompilation (a : ToolAction) : Bool :=
  match a with
  | ToolAction.transpile _ => true
  | ToolAction.nativeCompile _ => true
  | _ => false

/-- Claim C1, counterexample: loading the module other than as the entry
point (`asMain = false`, i.e. importing it) does trigger the external build,
because `src/setup.py` has no `if __name__ == "__main__"` guard — the
`setup(...)` call runs on every load. -/
theorem importTriggersBuild : triggersBuild (loadModule false []) = true := by
  decide

/-- Claim C1 (amended): the build script has no side effects beyond
triggering the external build process, and it triggers that build on every
load of the module — whether executed as an entry point or imported — since
the file contains no entry-point guard. -/
theorem loadAlwaysTriggersBuildOnly (m : Bool) (a : List String) :
    triggersBuild (loadModule m a) = true ∧
    hasScriptOutput (loadModule m a) = false :=
  ⟨rfl, rfl⟩

/-- Claim C2: re-invoking the build step with unchanged inputs is idempotent:
every invocation requests the same build specification and hence the same
transpilation, compilation and packaging actions; the repository performs no
caching or memoization, so any two invocations with the same environment
produce equal outcomes. -/
theorem buildStepIdempotent (env : Env) (i j : Nat) :
    invokeBuildStep env i = invokeBuildStep env j ∧
    specsRequested (loadModule true []) = [theBuildSpec] :=
  ⟨rfl, rfl⟩

/-- Claim C3: whenever the configuration mapping contains an unrecognized
option key, the build fails with the unrecognized-option error and performs
no action at all — in particular no transpilation or native compilation. -/
theorem unrecognizedOptionFailsBeforeCompilation (env : Env) (bs : BuildSpec)
    (kv : String × String) (hmem : kv ∈ bs.directives)
    (hkey : recognizedOptions.contains kv.1 = false) :
    (runBuild env bs).actions = [] ∧
    (runBuild env bs).result = Except.error BuildError.unrecognizedOption := by
  have hany : bs.directives.any (fun kv => !(recognizedOptions.contains kv.1))
      = true :=
    List.any_eq_true.mpr ⟨kv, hmem, by rw [hkey]; rfl⟩
  rw [runBuild, if_pos hany]
  exact ⟨rfl, rfl⟩

/-- Claim C3, witness: a build whose directive mapping holds the unrecognized
key `"evil"` fails with the unrecognized-option error before any action. -/
theorem unrecognizedOptionFailsBeforeCompilation_witness :
    (runBuild ⟨[], []⟩ ⟨["app.py"], [("evil", "1")]⟩).actions = [] ∧
    (runBuild ⟨[], []⟩ ⟨["app.py"], [("evil", "1")]⟩).result =
      Except.error BuildError.unrecognizedOption :=
  unrecognizedOptionFailsBeforeCompilation ⟨[], []⟩ ⟨["app.py"], [("evil", "1")]⟩
    ("evil", "1") (by decide) (by decide)

/-- Claim C4: when the named source module `app.py` does not exist in the
environment, the build fails with the missing-source error and performs no
action — no compilation is attempted. -/
theorem missingSourceFailsBeforeCompilation (env : Env)
    (habs : (fileNames env).contains "app.py" = false) :
    (runBuild env theBuildSpec).actions = [] ∧
    (runBuild env theBuildSpec).result = Except.error BuildError.missingSource
    := by
  have h2 : theBuildSpec.modules.any (fun m => !((fileNames env).contains m))
      = true := by
    show (!((fileNames env).contains "app.py") || false) = true
    rw [habs]
    rfl
  rw [runBuild, if_neg (by decide), if_pos h2]
  exact ⟨rfl, rfl⟩

/-- Claim C4, witness: in an environment with no files at all, the build of
`src/setup.py` fails with the missing-source error before any action. -/
theorem missingSourceFailsBeforeCompilation_witness :
    (runBuild ⟨[], []⟩ theBuildSpec).actions = [] ∧
    (runBuild ⟨[], []⟩ theBuildSpec).result =
      Except.error BuildError.missingSource :=
  missingSourceFailsBeforeCompilation ⟨[], []⟩ (by decide)

/-- Claim C5: when the named source module `app.py` exists and the directive
value `("language_level", "3")` is accepted by the toolchain, the build step
produces the native artifact for `app.py` and reports no error. -/
theorem validBuildProducesArtifact (env : Env)
    (hfile : (fileNames env).contains "app.py" = true)
    (hval : env.supportedValues.contains ("language_level", "3") = true) :
    (runBuild env theBuildSpec).result = Except.ok [Artifact.native "app.py"]
    := by
  have h2 : theBuildSpec.modules.any (fun m => !((fileNames env).contains m))
      = false := by
    show (!((fileNames env).contains "app.py") || false) = false
    rw [hfile]
    rfl
  have h3 : theBuildSpec.directives.any
      (fun kv => !(env.supportedValues.contains kv)) = false := by
    show (!(env.supportedValues.contains ("language_level", "3")) || false)
      = false
    rw [hval]
    rfl
  rw [runBuild, if_neg (by decide), if_neg (by rw [h2]; exact Bool.false_ne_true),
    if_neg (by rw [h3]; exact Bool.false_ne_true)]
  rfl

/-- Claim C5, witness: in an environment holding `app.py` and accepting the
language-level directive, the build succeeds with the native artifact. -/
theorem validBuildProducesArtifact_witness :
    (runBuild ⟨[("app.py", "src")], [("language_level", "3")]⟩
      theBuildSpec).result = Except.ok [Artifact.native "app.py"] :=
  validBuildProducesArtifact ⟨[("app.py", "src")], [("language_level", "3")]⟩
    (by decide) (by decide)

/-- Claim C6: the build step names exactly one source module, `app.py`, and
on a valid build the toolchain performs exactly one read of that file followed
by its transpilation, native compilation, and packaging — nothing else. -/
theorem oneModuleOneReadFullPipeline (env : Env)
    (hfile : (fileNames env).contains "app.py" = true)
    (hval : env.supportedValues.contains ("language_level", "3") = true) :
    theBuildSpec.modules = ["app.py"] ∧
    (runBuild env theBuildSpec).actions =
      [ToolAction.readSource "app.py", ToolAction.transpile "app.py",
       ToolAction.nativeCompile "app.py", ToolAction.package "app.py"] := by
  have h2 : theBuildSpec.modules.any (fun m => !((fileNames env).contains m))
      = false := by
    show (!((fileNames env).contains "app.py") || false) = false
    rw [hfile]
    rfl
  have h3 : theBuildSpec.directives.any
      (fun kv => !(env.supportedValues.contains kv)) = false := by
    show (!(env.supportedValues.contains ("language_level", "3")) || false)
      = false
    rw [hval]
    rfl
  rw [runBuild, if_neg (by decide), if_neg (by rw [h2]; exact Bool.false_ne_true),
    if_neg (by rw [h3]; exact Bool.false_ne_true)]
  exact ⟨rfl, rfl⟩

/-- Claim C6, witness: the pipeline actions of a concrete valid build. -/
theorem oneModuleOneReadFullPipeline_witness :
    theBuildSpec.modules = ["app.py"] ∧
    (runBuild ⟨[("app.py", "src")], [("language_level", "3")]⟩
      theBuildSpec).actions =
      [ToolAction.readSource "app.py", ToolAction.transpile "app.py",
       ToolAction.nativeCompile "app.py", ToolAction.package "app.py"] :=
  oneModuleOneReadFullPipeline ⟨[("app.py", "src")], [("language_level", "3")]⟩
    (by decide) (by decide)

/-- Claim C7: every build specification the script hands to the toolchain
carries exactly the one directive `("language_level", "3")`, and the
language-level key is the single recognized configuration option. -/
theorem configSurfaceSingleOption (m : Bool) (a : List String) (s : BuildSpec)
    (hs : ScriptEffect.invokeToolchain s ∈ loadModule m a) :
    s.directives = [("language_level", "3")] ∧
    recognizedOptions = ["language_level"] := by
  have hone : ScriptEffect.invokeToolchain s =
      ScriptEffect.invokeToolchain theBuildSpec := List.mem_singleton.mp hs
  have hspec : s = theBuildSpec := by injection hone
  rw [hspec]
  exact ⟨rfl, rfl⟩

/-- Claim C7, witness: the specification requested by loading the module as
an entry point carries only the language-level directive. -/
theorem configSurfaceSingleOption_witness :
    theBuildSpec.directives = [("language_level", "3")] ∧
    recognizedOptions = ["language_level"] :=
  configSurfaceSingleOption true [] theBuildSpec (List.mem_singleton.mpr rfl)

/-- Claim C8: on a valid build the named source file is read exactly once,
and the source files of the environment are unchanged after the build step
completes. -/
theorem sourceReadOnceNotMutated (env : Env)
    (hfile : (fileNames env).contains "app.py" = true)
    (hval : env.supportedValues.contains ("language_level", "3") = true) :
    (runBuild env theBuildSpec).actions.count (ToolAction.readSource "app.py")
      = 1 ∧
    (runBuild env theBuildSpec).filesAfter = env.files := by
  have h2 : theBuildSpec.modules.any (fun m => !((fileNames env).contains m))
      = false := by
    show (!((fileNames env).contains "app.py") || false) = false
    rw [hfile]
    rfl
  have h3 : theBuildSpec.directives.any
      (fun kv => !(env.supportedValues.contains kv)) = false := by
    show (!(env.supportedValues.contains ("language_level", "3")) || false)
      = false
    rw [hval]
    rfl
  rw [runBuild, if_neg (by decide), if_neg (by rw [h2]; exact Bool.false_ne_true),
    if_neg (by rw [h3]; exact Bool.false_ne_true)]
  refine ⟨?_, rfl⟩
  show (theBuildSpec.modules.flatMap buildActions).count
    (ToolAction.readSource "app.py") = 1
  decide

/-- Claim C8, witness: a concrete valid build reads `app.py` once and leaves
the environment files unchanged. -/
theorem sourceReadOnceNotMutated_witness :
    (runBuild ⟨[("app.py", "src")], [("language_level", "3")]⟩
      theBuildSpec).actions.count (ToolAction.readSource "app.py") = 1 ∧
    (runBuild ⟨[("app.py", "src")], [("language_level", "3")]⟩
      theBuildSpec).filesAfter = [("app.py", "src")] :=
  sourceReadOnceNotMutated ⟨[("app.py", "src")], [("language_level", "3")]⟩
    (by decide) (by decide)

/-- Claim C9: the only observable output of the build script is the single
build specification handed to the external toolchain; the script prints
nothing and writes no file itself, under every load mode and argument list. -/
theorem onlyOutputIsBuildSpec (m : Bool) (a : List String) :
    loadModule m a = [ScriptEffect.invokeToolchain theBuildSpec] ∧
    hasScriptOutput (loadModule m a) = false :=
  ⟨rfl, rfl⟩

/-- Claim C10: the build step takes no caller-supplied inputs: the module
name and the language-level value are hard-coded constants, so the effects of
loading the script — and the one specification it requests — are identical
across any two load modes and argument lists. -/
theorem buildSpecIndependentOfInputs (m mm : Bool) (a aa : List String) :
    loadModule m a = loadModule mm aa ∧
    specsRequested (loadModule m a) =
      [BuildSpec.mk ["app.py"] [("language_level", "3")]] :=
  ⟨rfl, rfl⟩
